import Mathlib

/-!
Verification of the request-orchestration module of the Gemini typography app.

This file gives a shallow embedding of the client-side request orchestrator
(`handleSubmit` in `src/typography/src/App.tsx`) and its retry/fallback logic,
and proves properties of the embedding.

The environment of one submission is modelled as a function
`env : Nat → AttemptOutcome` giving, for each 0-based attempt index, what the
`fetch` call on that attempt does: reject with a connection-level error
message, or resolve with an HTTP response.  A response carries its status and
the outcomes of the two possible `.json()` parses the code may perform on it
(as an error body with an optional `details` field, or as a success body
parsed into a `FontSuggestion`).

State and observable effects are explicit: `AppState` holds the React state
(`result`, `loading`, `error`) together with the refs (`inFlightRef`,
`lastPromptRef`) and the controlled input `prompt`; a run of `handleSubmit`
returns a `SubmitTrace` recording the final state, the number of network
calls issued, and the list of timed delays (in ms, in order) awaited.
-/

/-- Structure FontSuggestion from src/typography/src/types.ts. -/
structure FontSuggestion where
  font_name : String
  reason : String
deriving DecidableEq, Repr

/-- Constant MOCK_FONT_SUGGESTION from App.tsx. -/
def MOCK_FONT_SUGGESTION : FontSuggestion :=
  { font_name := "Press Start 2P"
    reason := "Network connection failed. Showing mock response for debugging. The title suggests a clear, nostalgic 8-bit style." }

/-- Constant API_URL from App.tsx. -/
def API_URL : String := "http://localhost:3000/api/suggest-font"

/-- Outcome of parsing a response body as a `FontSuggestion`
(`await response.json()` on the success path): it either resolves with the
parsed data or rejects with an error message. -/
inductive BodyParse where
  | parsed (data : FontSuggestion)
  | parseFail (msg : String)
deriving DecidableEq, Repr

/-- A resolved `fetch` response, as observed by `handleSubmit`: its HTTP
status, the `details` field obtained when the body is parsed as an error
body (`none` when the field is absent or that parse rejects — the code
ignores the rejection), and the outcome of parsing the body as a
`FontSuggestion`. -/
structure HttpResponse where
  status : Nat
  jsonDetails : Option String
  jsonSuggestion : BodyParse
deriving DecidableEq, Repr

/-- Field ok of a Fetch API Response: status in the range [200, 300). -/
def respOk (r : HttpResponse) : Bool :=
  200 ≤ r.status && r.status < 300

/-- What one `fetch` call does: reject with a connection-level error message,
or resolve with a response. -/
inductive AttemptOutcome where
  | throwErr (msg : String)
  | ret (r : HttpResponse)
deriving DecidableEq, Repr

/-- How control leaves the retry loop: an exception propagates out, or the
loop finishes normally with the final value of the `response` variable. -/
inductive LoopExit where
  | thrown (msg : String)
  | finished (response : Option HttpResponse)
deriving DecidableEq, Repr

/-- Observable trace of the retry loop: how it exited, how many `fetch`
calls were issued, and the backoff delays (ms) awaited, in order. -/
structure LoopTrace where
  exit : LoopExit
  attempts : Nat
  delays : List Nat
deriving DecidableEq, Repr

/-- Constant maxRetries from App.tsx. -/
def maxRetries : Nat := 3

/-- The body of the retry loop of `handleSubmit`, one constructor case per
remaining iteration (`fuel = maxRetries - i`):

```
for (let i = 0; i < maxRetries; i++) {
  try {
    response = await fetch(API_URL, ...);
    if (response.ok) break;
    if (response.status === 404 || response.status >= 500) {
      await new Promise((r) => setTimeout(r, Math.pow(2, i) * 500));
    } else break;
  } catch (fetchErr) {
    if (i === maxRetries - 1) throw fetchErr;
    await new Promise((r) => setTimeout(r, Math.pow(2, i) * 500));
  }
}
```

Note that in the retryable-status branch the code sleeps even when `i` is
the last iteration; only the catch branch is guarded by `i === maxRetries - 1`. -/
def retryGo (env : Nat → AttemptOutcome) :
    Nat → Nat → Option HttpResponse → Nat → List Nat → LoopTrace
  | 0, _, response, attempts, delays => ⟨.finished response, attempts, delays⟩
  | fuel + 1, i, response, attempts, delays =>
    match env i with
    | .throwErr msg =>
      if i = maxRetries - 1 then ⟨.thrown msg, attempts + 1, delays⟩
      else retryGo env fuel (i + 1) response (attempts + 1) (delays ++ [2 ^ i * 500])
    | .ret r =>
      if respOk r then ⟨.finished (some r), attempts + 1, delays⟩
      else if r.status = 404 ∨ 500 ≤ r.status then
        retryGo env fuel (i + 1) (some r) (attempts + 1) (delays ++ [2 ^ i * 500])
      else ⟨.finished (some r), attempts + 1, delays⟩

/-- The whole retry loop: `response` starts `null`, `i` starts at 0, and at
most `maxRetries` iterations run. -/
def retryLoop (env : Nat → AttemptOutcome) : LoopTrace :=
  retryGo env maxRetries 0 none 0 []

/-- The React state of `App` together with the refs used by `handleSubmit`:
the controlled input `prompt`, the displayed `result`, `loading`, `error`,
`inFlightRef` and `lastPromptRef`. -/
structure AppState where
  prompt : String
  result : Option FontSuggestion
  loading : Bool
  error : Option String
  inFlight : Bool
  lastPrompt : Option String
deriving DecidableEq, Repr

/-- Trace of one invocation of `handleSubmit`: the state when it returns,
the number of `fetch` calls issued, and all timed delays (ms) awaited, in
order (backoff sleeps, then possibly the 500ms mock-fallback delay). -/
structure SubmitTrace where
  state : AppState
  calls : Nat
  delays : List Nat
deriving DecidableEq, Repr

/-- JavaScript String.prototype.trim: remove whitespace from both ends of
the string. -/
def jsTrim (s : String) : String :=
  ⟨((s.toList.dropWhile Char.isWhitespace).reverse.dropWhile Char.isWhitespace).reverse⟩

/-- JavaScript substring containment on lists of characters: `pat` occurs
contiguously. -/
def listContainsAux (pat : List Char) : List Char → Bool
  | [] => pat.isEmpty
  | c :: rest => pat.isPrefixOf (c :: rest) || listContainsAux pat rest

/-- JavaScript String.prototype.includes: `pat` is a contiguous substring
of `s`. -/
def strContains (s pat : String) : Bool :=
  listContainsAux pat.toList s.toList

/-- The updater passed to `setResult`:

```
setResult((prev) => {
  if (prev && prev.font_name === data.font_name && prev.reason === data.reason) return prev;
  return data;
});
```
-/
def updateResult (prev : Option FontSuggestion) (data : FontSuggestion) :
    Option FontSuggestion :=
  match prev with
  | some p => if p.font_name = data.font_name ∧ p.reason = data.reason then some p else some data
  | none => some data

/-- The validation message set for an empty trimmed title. -/
def validationMsg : String := "Please enter a title to analyze."

/-- The advisory error message set on the mock-fallback path. -/
def mockErrorMsg : String :=
  "[MOCK ACTIVE] API server not found at " ++ API_URL ++ ". Displaying mock font: "
    ++ MOCK_FONT_SUGGESTION.font_name ++ "."

/-- The message of the `Error` thrown after the retry loop when no
successful response was obtained:
`errData.details || "HTTP error! status: <status or Network Error>"`
(JavaScript `||`: an empty `details` string is falsy and falls through). -/
def postLoopErrMsg (resp : Option HttpResponse) : String :=
  let generic := "HTTP error! status: " ++
    (match resp with
     | some r => toString r.status
     | none => "Network Error")
  match resp with
  | some r =>
    match r.jsonDetails with
    | some d => if d = "" then generic else d
    | none => generic
  | none => generic

/-- The `catch` block of `handleSubmit`: on a message containing
"Failed to fetch" or "NetworkError", wait 500ms, substitute the mock
suggestion (with the no-redundant-update rule), set the advisory error,
and record the prompt in `lastPromptRef`; otherwise set the server error
message.  Returns the updated state and the delays awaited in the block. -/
def catchHandler (s : AppState) (currentPrompt errorMsg : String) :
    AppState × List Nat :=
  if strContains errorMsg "Failed to fetch" || strContains errorMsg "NetworkError" then
    ({ s with result := updateResult s.result MOCK_FONT_SUGGESTION
              error := some mockErrorMsg
              lastPrompt := some currentPrompt }, [500])
  else
    ({ s with error := some ("Server Error: " ++ errorMsg ++ ".") }, [])

/-- The `try`/`catch` part of `handleSubmit` after the guards: run the retry
loop; on a normal exit with a successful response, parse it and record the
result and the prompt; on any thrown error (propagated from the loop,
constructed after the loop, or a body-parse rejection) run `catchHandler`.
Returns the state, the number of `fetch` calls, and the delays. -/
def tryCatchBlock (s : AppState) (currentPrompt : String) (env : Nat → AttemptOutcome) :
    AppState × Nat × List Nat :=
  let t := retryLoop env
  match t.exit with
  | .thrown msg =>
    let p := catchHandler s currentPrompt msg
    (p.1, t.attempts, t.delays ++ p.2)
  | .finished none =>
    let p := catchHandler s currentPrompt (postLoopErrMsg none)
    (p.1, t.attempts, t.delays ++ p.2)
  | .finished (some r) =>
    if respOk r then
      match r.jsonSuggestion with
      | .parsed data =>
        ({ s with result := updateResult s.result data
                  lastPrompt := some currentPrompt }, t.attempts, t.delays)
      | .parseFail msg =>
        let p := catchHandler s currentPrompt msg
        (p.1, t.attempts, t.delays ++ p.2)
    else
      let p := catchHandler s currentPrompt (postLoopErrMsg (some r))
      (p.1, t.attempts, t.delays ++ p.2)

/-- The dedup short-circuit test:
`lastPromptRef.current && lastPromptRef.current === currentPrompt`
(`null` and the empty string are falsy). -/
def dedupHit (lastPrompt : Option String) (currentPrompt : String) : Bool :=
  match lastPrompt with
  | none => false
  | some lp => lp != "" && lp == currentPrompt

/-- Function handleSubmit from App.tsx: trim the prompt (`initialPrompt ?? prompt`);
on an empty trimmed prompt set the validation error and stop; if in flight,
or if the trimmed prompt equals the recorded last prompt, stop silently;
otherwise set the guard, `loading`, clear `error`, run the `try`/`catch`
body, and finally clear the guard and `loading`. -/
def handleSubmit (s : AppState) (initialPrompt : Option String)
    (env : Nat → AttemptOutcome) : SubmitTrace :=
  let currentPrompt := jsTrim (initialPrompt.getD s.prompt)
  if currentPrompt = "" then
    ⟨{ s with error := some validationMsg }, 0, []⟩
  else if s.inFlight then
    ⟨s, 0, []⟩
  else if dedupHit s.lastPrompt currentPrompt then
    ⟨s, 0, []⟩
  else
    let s1 := { s with inFlight := true, loading := true, error := none }
    let r := tryCatchBlock s1 currentPrompt env
    ⟨{ r.1 with inFlight := false, loading := false }, r.2.1, r.2.2⟩

/-- The error message with which the `try` body of `handleSubmit` throws for
a given loop trace, or `none` when it succeeds: the propagated loop
exception, the post-loop constructed error when the response is missing or
not ok, or the success-body parse rejection. -/
def failureMsg (t : LoopTrace) : Option String :=
  match t.exit with
  | .thrown msg => some msg
  | .finished none => some (postLoopErrMsg none)
  | .finished (some r) =>
    if respOk r then
      match r.jsonSuggestion with
      | .parsed _ => none
      | .parseFail msg => some msg
    else some (postLoopErrMsg (some r))

/-! Concrete states and environments used as witnesses. -/

/-- A fresh state: empty prompt, no result, not loading, no error, guard
clear, no recorded prompt. -/
def freshState : AppState :=
  { prompt := "", result := none, loading := false, error := none,
    inFlight := false, lastPrompt := none }

/-- An environment whose every attempt rejects with a non-network message. -/
def envBoom : Nat → AttemptOutcome := fun _ => .throwErr "boom"

/-! Helper lemmas shared by the claim theorems. -/

/-- As a value, the updater always yields the new data: when the two
suggestions agree field-wise they are equal, so returning `prev` and
returning `data` coincide (the difference is only object identity). -/
theorem updateResult_eq_some (prev : Option FontSuggestion) (data : FontSuggestion) :
    updateResult prev data = some data := by
  cases prev with
  | none => rfl
  | some p =>
    by_cases h : p.font_name = data.font_name ∧ p.reason = data.reason
    · obtain ⟨h1, h2⟩ := h
      cases p
      cases data
      simp_all [updateResult]
    · simp [updateResult, h]

/-- Unfolding lemma: when all three short-circuits miss, `handleSubmit`
runs the try/catch body on the prepared state and then clears the guard
and the loading flag. -/
theorem handleSubmit_proceed (s : AppState) (init : Option String)
    (env : Nat → AttemptOutcome)
    (h1 : jsTrim (init.getD s.prompt) ≠ "") (h2 : s.inFlight = false)
    (h3 : dedupHit s.lastPrompt (jsTrim (init.getD s.prompt)) = false) :
    handleSubmit s init env =
      ⟨{ (tryCatchBlock { s with inFlight := true, loading := true, error := none }
            (jsTrim (init.getD s.prompt)) env).1 with inFlight := false, loading := false },
        (tryCatchBlock { s with inFlight := true, loading := true, error := none }
            (jsTrim (init.getD s.prompt)) env).2.1,
        (tryCatchBlock { s with inFlight := true, loading := true, error := none }
            (jsTrim (init.getD s.prompt)) env).2.2⟩ := by
  simp only [handleSubmit]
  rw [if_neg h1, if_neg (by simp [h2]), if_neg (by simp [h3])]

/-- Unfolding lemma: when the try body throws with message `m`, the
try/catch block runs the catch handler on `m` after the loop. -/
theorem tryCatchBlock_failure (s : AppState) (p : String)
    (env : Nat → AttemptOutcome) (m : String)
    (hm : failureMsg (retryLoop env) = some m) :
    tryCatchBlock s p env =
      ((catchHandler s p m).1, (retryLoop env).attempts,
        (retryLoop env).delays ++ (catchHandler s p m).2) := by
  unfold failureMsg at hm
  unfold tryCatchBlock
  cases hx : (retryLoop env).exit with
  | thrown msg =>
    rw [hx] at hm
    simp only [Option.some.injEq] at hm
    subst hm
    simp [hx]
  | finished resp =>
    cases resp with
    | none =>
      rw [hx] at hm
      simp only [Option.some.injEq] at hm
      subst hm
      simp [hx]
    | some r =>
      rw [hx] at hm
      by_cases hok : respOk r = true
      · cases hj : r.jsonSuggestion with
        | parsed d => simp [hok, hj] at hm
        | parseFail msg =>
          simp only [hok, hj, if_true] at hm
          simp only [Option.some.injEq] at hm
          subst hm
          simp [hx, hok, hj]
      · simp only [hok, if_false, Bool.false_eq_true] at hm
        simp only [Option.some.injEq] at hm
        subst hm
        simp [hx, hok]

/-- Unfolding lemma: on a successful, parsable response the try/catch block
records the (possibly deduplicated) result and the prompt. -/
theorem tryCatchBlock_success (s : AppState) (p : String)
    (env : Nat → AttemptOutcome) (r : HttpResponse) (d : FontSuggestion)
    (hx : (retryLoop env).exit = .finished (some r))
    (hok : respOk r = true)
    (hj : r.jsonSuggestion = .parsed d) :
    tryCatchBlock s p env =
      ({ s with result := updateResult s.result d, lastPrompt := some p },
        (retryLoop env).attempts, (retryLoop env).delays) := by
  unfold tryCatchBlock
  simp [hx, hok, hj]

/-- Shared helper: a submit whose trimmed prompt is nonempty and equals the
recorded last prompt is a silent no-op. -/
theorem submit_dedup_skip (s : AppState) (init : Option String)
    (env : Nat → AttemptOutcome) (t : String)
    (hlast : s.lastPrompt = some t) (ht : t ≠ "")
    (htrim : jsTrim (init.getD s.prompt) = t) :
    handleSubmit s init env = ⟨s, 0, []⟩ := by
  simp only [handleSubmit, htrim]
  rw [if_neg ht]
  by_cases hin : s.inFlight = true
  · simp [hin]
  · simp only [Bool.not_eq_true] at hin
    simp [hin, dedupHit, hlast, ht]

/-! Claim theorems. -/

/-- C2: for every title that is empty or whitespace-only after trimming,
`handleSubmit` issues no network call, sets the error field to the
validation message "Please enter a title to analyze.", and stops: no other
state field changes, no delay is awaited. -/
theorem submit_empty_title_validation (s : AppState) (init : Option String)
    (env : Nat → AttemptOutcome)
    (h : jsTrim (init.getD s.prompt) = "") :
    handleSubmit s init env = ⟨{ s with error := some validationMsg }, 0, []⟩ := by
  simp [handleSubmit, h]

/-- Witness for C2 at a whitespace-only title. -/
theorem submit_empty_title_validation_witness :
    handleSubmit freshState (some "   ") envBoom =
      ⟨{ freshState with error := some validationMsg }, 0, []⟩ :=
  submit_empty_title_validation freshState (some "   ") envBoom (by decide)

/-- A state whose in-flight guard is set and whose error field is clear. -/
def busyState : AppState :=
  { prompt := "", result := none, loading := true, error := none,
    inFlight := true, lastPrompt := none }

/-- C3 counterexample: with the in-flight guard set, a `handleSubmit` call
whose title is empty is NOT a no-op — the empty-title validation runs
before the guard check and overwrites the error field. -/
theorem submit_inflight_empty_title_changes_state :
    (handleSubmit busyState none envBoom).state ≠ busyState ∧
    (handleSubmit busyState none envBoom).state.error = some validationMsg ∧
    busyState.error = none ∧
    (handleSubmit busyState none envBoom).calls = 0 := by
  decide

/-- C3 amended: while the in-flight guard is set, a `handleSubmit` call
whose title is nonempty after trimming is a no-op: the state is returned
unchanged, no network call is issued, no delay is awaited.  (A call with an
empty trimmed title still sets the validation error, because that check
precedes the guard check.) -/
theorem submit_inflight_noop (s : AppState) (init : Option String)
    (env : Nat → AttemptOutcome)
    (hin : s.inFlight = true)
    (ht : jsTrim (init.getD s.prompt) ≠ "") :
    handleSubmit s init env = ⟨s, 0, []⟩ := by
  simp only [handleSubmit]
  rw [if_neg ht]
  simp [hin]

/-- Witness for the amended C3 at a nonempty title. -/
theorem submit_inflight_noop_witness :
    handleSubmit busyState (some "My Title") envBoom = ⟨busyState, 0, []⟩ :=
  submit_inflight_noop busyState (some "My Title") envBoom (by decide) (by decide)

/-- C4: for every submit whose trimmed title equals the (nonempty) title
recorded in Dedup Memory, no network call is issued and the state is
returned unchanged. -/
theorem submit_dedup_noop (s : AppState) (init : Option String)
    (env : Nat → AttemptOutcome) (t : String)
    (hlast : s.lastPrompt = some t) (ht : t ≠ "")
    (htrim : jsTrim (init.getD s.prompt) = t) :
    handleSubmit s init env = ⟨s, 0, []⟩ :=
  submit_dedup_skip s init env t hlast ht htrim

/-- A state that has already resolved the title "My Title". -/
def resolvedState : AppState :=
  { prompt := "", result := some ⟨"Inter", "clean lines"⟩, loading := false,
    error := none, inFlight := false, lastPrompt := some "My Title" }

/-- Witness for C4 at a recorded title. -/
theorem submit_dedup_noop_witness :
    handleSubmit resolvedState (some " My Title ") envBoom = ⟨resolvedState, 0, []⟩ :=
  submit_dedup_noop resolvedState (some " My Title ") envBoom "My Title"
    (by decide) (by decide) (by decide)

/-- C9: for every submit that passes the three short-circuit checks, the
invocation ends with the in-flight guard clear and loading clear, whatever
the environment does. -/
theorem submit_clears_guard_and_loading (s : AppState) (init : Option String)
    (env : Nat → AttemptOutcome)
    (h1 : jsTrim (init.getD s.prompt) ≠ "") (h2 : s.inFlight = false)
    (h3 : dedupHit s.lastPrompt (jsTrim (init.getD s.prompt)) = false) :
    (handleSubmit s init env).state.inFlight = false ∧
    (handleSubmit s init env).state.loading = false := by
  rw [handleSubmit_proceed s init env h1 h2 h3]
  exact ⟨rfl, rfl⟩

/-- Witness for C9 at a failing environment. -/
theorem submit_clears_guard_and_loading_witness :
    (handleSubmit freshState (some "My Title") envBoom).state.inFlight = false ∧
    (handleSubmit freshState (some "My Title") envBoom).state.loading = false :=
  submit_clears_guard_and_loading freshState (some "My Title") envBoom
    (by decide) (by decide) (by decide)

/-- Whether a loop exit is a normal exit with a still-null `response`. -/
def exitFinishedNull : LoopExit → Bool
  | .finished none => true
  | _ => false

/-- Once `response` holds a response, every normal exit of the remaining
iterations still holds one. -/
theorem retryGo_some_not_null (env : Nat → AttemptOutcome) (fuel : Nat) :
    ∀ (i a : Nat) (ds : List Nat) (r0 : HttpResponse),
      exitFinishedNull (retryGo env fuel i (some r0) a ds).exit = false := by
  induction fuel with
  | zero => intro i a ds r0; rfl
  | succ f ih =>
    intro i a ds r0
    simp only [retryGo]
    cases env i with
    | throwErr msg =>
      by_cases h : i = maxRetries - 1
      · simp [h, exitFinishedNull]
      · simp only [h, if_false]
        exact ih (i + 1) (a + 1) (ds ++ [2 ^ i * 500]) r0
    | ret r =>
      by_cases hok : respOk r = true
      · simp [hok, exitFinishedNull]
      · by_cases hs : r.status = 404 ∨ 500 ≤ r.status
        · simp only [hok, hs, if_false, if_true, Bool.false_eq_true]
          exact ih (i + 1) (a + 1) (ds ++ [2 ^ i * 500]) r
        · simp [hok, hs, exitFinishedNull]

/-- While `response` is still null, a normal exit with a null `response`
is impossible as long as the final iteration is still ahead: an all-throws
suffix ends in a propagated throw, and any resolved attempt puts a
response into the variable. -/
theorem retryGo_none_not_null (env : Nat → AttemptOutcome) (fuel : Nat) :
    ∀ (i a : Nat) (ds : List Nat), i + fuel = maxRetries → 0 < fuel →
      exitFinishedNull (retryGo env fuel i none a ds).exit = false := by
  induction fuel with
  | zero => intro i a ds hfi hf; omega
  | succ f ih =>
    intro i a ds hfi hf
    simp only [retryGo]
    cases env i with
    | throwErr msg =>
      by_cases h : i = maxRetries - 1
      · simp [h, exitFinishedNull]
      · simp only [h, if_false]
        have hmr : maxRetries = 3 := rfl
        refine ih (i + 1) (a + 1) (ds ++ [2 ^ i * 500]) (by omega) (by
          rw [hmr] at hfi h
          omega)
    | ret r =>
      by_cases hok : respOk r = true
      · simp [hok, exitFinishedNull]
      · by_cases hs : r.status = 404 ∨ 500 ≤ r.status
        · simp only [hok, hs, if_false, if_true, Bool.false_eq_true]
          exact retryGo_some_not_null env f (i + 1) (a + 1) (ds ++ [2 ^ i * 500]) r
        · simp [hok, hs, exitFinishedNull]

/-- C10: the retry loop never exits normally with a null `response`: the
post-loop non-null assertion is safe and the "Network Error" text of the
generic message (used only when `response` is null) is unreachable,
because a connection-level throw on the final attempt propagates out of
the loop. -/
theorem retry_loop_response_never_null (env : Nat → AttemptOutcome) :
    exitFinishedNull (retryLoop env).exit = false :=
  retryGo_none_not_null env maxRetries 0 0 [] (by rfl) (by decide)

/-- An HTTP 503 response (unparsable body, no details). -/
def resp503 : HttpResponse :=
  { status := 503, jsonDetails := none, jsonSuggestion := .parseFail "unexpected token" }

/-- An environment whose every attempt resolves with HTTP 503. -/
def env503 : Nat → AttemptOutcome := fun _ => .ret resp503

/-- A 200 response carrying a parsable suggestion `d`. -/
def okResp (d : FontSuggestion) : HttpResponse :=
  { status := 200, jsonDetails := none, jsonSuggestion := .parsed d }

/-- The 503, 503, 200 environment of the C5 scenario. -/
def env503x2 (d : FontSuggestion) : Nat → AttemptOutcome :=
  fun i => if i < 2 then .ret resp503 else .ret (okResp d)

/-- C5 counterexample: with three 503 responses the loop issues 3 attempts
but awaits THREE backoff delays — 2^2 * 500 = 2000ms is slept after the
last allowed attempt as well, contrary to the claim that no wait occurs
after attempt index maxRetries - 1. -/
theorem retry_backoff_waits_after_last_attempt :
    retryLoop env503 = ⟨.finished (some resp503), 3, [500, 1000, 2000]⟩ ∧
    (retryLoop env503).delays ≠ [500, 1000] := by
  decide

/-- Whether a response has a non-success status the loop treats as
retryable: 404 or ≥500 (and not ok). -/
def retryableStatus (r : HttpResponse) : Bool :=
  !respOk r && decide (r.status = 404 ∨ 500 ≤ r.status)

/-- Whether the loop sleeps its 2^i * 500ms backoff after executing attempt
`i`: it does exactly when the attempt resolves with a retryable status
(404 or ≥500, not ok) — the last allowed attempt included — or rejects on
a non-final attempt; it never sleeps after a success, a non-retryable
status, or a final-attempt rejection. -/
def sleepsAt (env : Nat → AttemptOutcome) (i : Nat) : Bool :=
  match env i with
  | .throwErr _ => decide (i ≠ maxRetries - 1)
  | .ret r => retryableStatus r

/-- An HTTP 404 response (unparsable body, no details). -/
def resp404 : HttpResponse :=
  { status := 404, jsonDetails := none, jsonSuggestion := .parseFail "not found" }

/-- An environment whose every attempt resolves with HTTP 404. -/
def env404 : Nat → AttemptOutcome := fun _ => .ret resp404

/-- The 404, 404, 200 environment. -/
def env404x2 (d : FontSuggestion) : Nat → AttemptOutcome :=
  fun i => if i < 2 then .ret resp404 else .ret (okResp d)

/-- The retry loop's delay list, characterized attempt by attempt: running
the loop body from attempt `i` with any `fuel` iterations left executes
some number `k` of further attempts, and appends to the accumulated delays
exactly one 2^j * 500ms sleep for each executed attempt `j` at which
`sleepsAt` holds, in order. -/
theorem retryGo_trace_spec (env : Nat → AttemptOutcome) (fuel : Nat) :
    ∀ (i : Nat) (resp : Option HttpResponse) (a : Nat) (ds : List Nat),
      ∃ k, (retryGo env fuel i resp a ds).attempts = a + k ∧
        (retryGo env fuel i resp a ds).delays =
          ds ++ (List.range' i k).filterMap
            (fun j => if sleepsAt env j then some (2 ^ j * 500) else none) := by
  induction fuel with
  | zero =>
    intro i resp a ds
    exact ⟨0, rfl, by simp [retryGo]⟩
  | succ f ih =>
    intro i resp a ds
    cases henv : env i with
    | throwErr msg =>
      by_cases h : i = maxRetries - 1
      · subst h
        refine ⟨1, ?_, ?_⟩
        · simp [retryGo, henv]
        · show _ = ds ++ (List.filterMap _
            ((maxRetries - 1) :: List.range' (maxRetries - 1 + 1) 0))
          simp [retryGo, henv, sleepsAt]
      · obtain ⟨k, hk1, hk2⟩ := ih (i + 1) resp (a + 1) (ds ++ [2 ^ i * 500])
        refine ⟨k + 1, ?_, ?_⟩
        · simp only [retryGo, henv]
          rw [if_neg h, hk1]
          omega
        · simp only [retryGo, henv]
          rw [if_neg h, hk2]
          show _ = ds ++ (List.filterMap _ (i :: List.range' (i + 1) k))
          simp [sleepsAt, henv, h, List.filterMap_cons]
    | ret r =>
      by_cases hok : respOk r = true
      · refine ⟨1, ?_, ?_⟩
        · simp [retryGo, henv, hok]
        · show _ = ds ++ (List.filterMap _ (i :: List.range' (i + 1) 0))
          simp [retryGo, henv, hok, sleepsAt, retryableStatus]
      · by_cases hs : r.status = 404 ∨ 500 ≤ r.status
        · obtain ⟨k, hk1, hk2⟩ := ih (i + 1) (some r) (a + 1) (ds ++ [2 ^ i * 500])
          refine ⟨k + 1, ?_, ?_⟩
          · simp only [retryGo, henv]
            rw [if_neg (by simp [hok]), if_pos hs, hk1]
            omega
          · simp only [retryGo, henv]
            rw [if_neg (by simp [hok]), if_pos hs, hk2]
            show _ = ds ++ (List.filterMap _ (i :: List.range' (i + 1) k))
            simp [sleepsAt, henv, retryableStatus, hok, hs, List.filterMap_cons]
        · refine ⟨1, ?_, ?_⟩
          · simp [retryGo, henv, hok, hs]
          · show _ = ds ++ (List.filterMap _ (i :: List.range' (i + 1) 0))
            simp [retryGo, henv, hok, hs, sleepsAt, retryableStatus]

/-- C5 amended: for EVERY environment, the loop's delay list consists of
exactly one 2^i * 500ms wait for each executed attempt `i` that returned a
retryable status (404 or a status ≥500) — the last allowed attempt
included, where the code still sleeps although no further attempt
follows — or that rejected on a non-final attempt, in order (`sleepsAt`
spells out this condition); with the 503, 503, 200 sequence the client
performs exactly 3 attempts with delays 500ms and 1000ms between them and
exits with the successful response, and likewise for 404, 404, 200; with
503 (or 404) on all three attempts the delays are 500ms, 1000ms and
2000ms. -/
theorem retry_backoff_behaviour (env : Nat → AttemptOutcome) (d : FontSuggestion) :
    (retryLoop env).delays =
      (List.range (retryLoop env).attempts).filterMap
        (fun i => if sleepsAt env i then some (2 ^ i * 500) else none) ∧
    retryLoop (env503x2 d) = ⟨.finished (some (okResp d)), 3, [500, 1000]⟩ ∧
    retryLoop (env404x2 d) = ⟨.finished (some (okResp d)), 3, [500, 1000]⟩ ∧
    retryLoop env503 = ⟨.finished (some resp503), 3, [500, 1000, 2000]⟩ ∧
    retryLoop env404 = ⟨.finished (some resp404), 3, [500, 1000, 2000]⟩ := by
  refine ⟨?_, rfl, rfl, by decide, by decide⟩
  obtain ⟨k, hk1, hk2⟩ := retryGo_trace_spec env maxRetries 0 none 0 []
  unfold retryLoop
  rw [hk2, hk1, List.range_eq_range']
  simp

/-- Unfolding lemma: a first attempt that resolves with a non-success,
non-retryable status breaks out of the loop at once: one attempt, no
delay. -/
theorem retryLoop_break_first (env : Nat → AttemptOutcome) (r : HttpResponse)
    (henv : env 0 = .ret r) (hok : respOk r = false)
    (hs : ¬(r.status = 404 ∨ 500 ≤ r.status)) :
    retryLoop env = ⟨.finished (some r), 1, []⟩ := by
  unfold retryLoop
  show retryGo env (2 + 1) 0 none 0 [] = _
  simp only [retryGo, henv, hok, hs, if_false, Bool.false_eq_true, Nat.zero_add]

/-- An HTTP 400 response whose error body carries a `details` field that
happens to contain the transport-failure marker "NetworkError". -/
def resp400Net : HttpResponse :=
  { status := 400, jsonDetails := some "NetworkError", jsonSuggestion := .parseFail "x" }

/-- The environment whose single consulted attempt resolves with
`resp400Net`. -/
def env400Net : Nat → AttemptOutcome := fun _ => .ret resp400Net

/-- A state holding the prompt "My Title", otherwise fresh. -/
def typedState : AppState :=
  { prompt := "My Title", result := none, loading := false, error := none,
    inFlight := false, lastPrompt := none }

/-- C6 counterexample: a single HTTP 400 whose `details` field is
"NetworkError" does NOT surface that details text — the message-content
transport-failure detector misfires on it and the mock-fallback path runs
instead, so the error is the mock advisory (which does not even contain
the details string) and the mock result is substituted. -/
theorem http400_details_not_reflected :
    (handleSubmit typedState none env400Net).state.error = some mockErrorMsg ∧
    (handleSubmit typedState none env400Net).state.error ≠
      some ("Server Error: " ++ "NetworkError" ++ ".") ∧
    strContains mockErrorMsg "NetworkError" = false ∧
    (handleSubmit typedState none env400Net).state.result = some MOCK_FONT_SUGGESTION := by
  decide

/-- The number of network calls reported by the try/catch block is the
loop's attempt count, on every branch. -/
theorem tryCatchBlock_attempts (s : AppState) (p : String)
    (env : Nat → AttemptOutcome) :
    (tryCatchBlock s p env).2.1 = (retryLoop env).attempts := by
  unfold tryCatchBlock
  cases hx : (retryLoop env).exit with
  | thrown msg => simp [hx]
  | finished resp =>
    cases resp with
    | none => simp [hx]
    | some r =>
      by_cases hok : respOk r = true
      · cases hj : r.jsonSuggestion with
        | parsed dt => simp [hx, hok, hj]
        | parseFail m => simp [hx, hok, hj]
      · simp [hx, hok]

/-- C6 amended: for every submit whose first attempt returns HTTP 400 —
whatever the error body holds — exactly one attempt is made (no retry, no
backoff wait: the loop ends after 1 attempt with no delay) and the submit
issues exactly 1 network call; the resulting error depends on the 400
response's `details` field: when present, nonempty and free of the
transport-failure markers "Failed to fetch" and "NetworkError", the error
carries the details text verbatim as "Server Error: <details>."; when
absent or empty (JavaScript `||` treats an empty string as falsy), the
error is the generic "Server Error: HTTP error! status: 400."; and when
the details text contains a marker, the message-content detector misfires
and the mock-fallback path runs instead. -/
theorem http400_single_attempt_details (s : AppState) (init : Option String)
    (env : Nat → AttemptOutcome) (r : HttpResponse)
    (h1 : jsTrim (init.getD s.prompt) ≠ "") (h2 : s.inFlight = false)
    (h3 : dedupHit s.lastPrompt (jsTrim (init.getD s.prompt)) = false)
    (henv : env 0 = .ret r) (hst : r.status = 400) :
    retryLoop env = ⟨.finished (some r), 1, []⟩ ∧
    (handleSubmit s init env).calls = 1 ∧
    (∀ d : String, r.jsonDetails = some d → d ≠ "" →
      strContains d "Failed to fetch" = false → strContains d "NetworkError" = false →
      handleSubmit s init env =
        ⟨{ s with error := some ("Server Error: " ++ d ++ "."),
                  inFlight := false, loading := false }, 1, []⟩) ∧
    (r.jsonDetails = none ∨ r.jsonDetails = some "" →
      handleSubmit s init env =
        ⟨{ s with error := some ("Server Error: " ++ "HTTP error! status: 400" ++ "."),
                  inFlight := false, loading := false }, 1, []⟩) ∧
    (∀ d : String, r.jsonDetails = some d →
      (strContains d "Failed to fetch" || strContains d "NetworkError") = true →
      handleSubmit s init env =
        ⟨{ s with result := some MOCK_FONT_SUGGESTION, error := some mockErrorMsg,
                  lastPrompt := some (jsTrim (init.getD s.prompt)),
                  inFlight := false, loading := false }, 1, [500]⟩) := by
  have hok : respOk r = false := by simp [respOk, hst]
  have hnr : ¬(r.status = 404 ∨ 500 ≤ r.status) := by
    rw [hst]
    norm_num
  have hloop : retryLoop env = ⟨.finished (some r), 1, []⟩ :=
    retryLoop_break_first env r henv hok hnr
  refine ⟨hloop, ?_, ?_, ?_, ?_⟩
  · rw [handleSubmit_proceed s init env h1 h2 h3]
    show (tryCatchBlock _ _ env).2.1 = 1
    rw [tryCatchBlock_attempts, hloop]
  · intro d hdet hne hf hn
    have hfail : failureMsg (retryLoop env) = some d := by
      rw [hloop]
      simp [failureMsg, hok, postLoopErrMsg, hdet, hne]
    rw [handleSubmit_proceed s init env h1 h2 h3,
      tryCatchBlock_failure _ _ env d hfail, hloop]
    simp [catchHandler, hf, hn]
  · intro hcase
    have hgen : postLoopErrMsg (some r) = "HTTP error! status: 400" := by
      rcases hcase with hdet | hdet
      · simp only [postLoopErrMsg, hdet, hst]
        decide
      · simp only [postLoopErrMsg, hdet, hst]
        decide
    have hfail : failureMsg (retryLoop env) = some "HTTP error! status: 400" := by
      rw [hloop]
      simp [failureMsg, hok, hgen]
    have hf : strContains "HTTP error! status: 400" "Failed to fetch" = false := by decide
    have hn : strContains "HTTP error! status: 400" "NetworkError" = false := by decide
    rw [handleSubmit_proceed s init env h1 h2 h3,
      tryCatchBlock_failure _ _ env _ hfail, hloop]
    simp [catchHandler, hf, hn]
  · intro d hdet hmark
    have hne : d ≠ "" := by
      intro hemp
      rw [hemp] at hmark
      exact absurd hmark (by decide)
    have hfail : failureMsg (retryLoop env) = some d := by
      rw [hloop]
      simp [failureMsg, hok, postLoopErrMsg, hdet, hne]
    rw [handleSubmit_proceed s init env h1 h2 h3,
      tryCatchBlock_failure _ _ env d hfail, hloop]
    simp [catchHandler, hmark, updateResult_eq_some]

/-- A 400 response with the plain details message "Bad prompt". -/
def resp400Plain : HttpResponse :=
  { status := 400, jsonDetails := some "Bad prompt", jsonSuggestion := .parseFail "x" }

/-- The environment whose single consulted attempt resolves with
`resp400Plain`. -/
def env400Plain : Nat → AttemptOutcome := fun _ => .ret resp400Plain

/-- Witness for the amended C6 at a concrete 400 response. -/
theorem http400_single_attempt_details_witness :
    retryLoop env400Plain = ⟨.finished (some resp400Plain), 1, []⟩ ∧
    (handleSubmit typedState none env400Plain).calls = 1 ∧
    (∀ d : String, resp400Plain.jsonDetails = some d → d ≠ "" →
      strContains d "Failed to fetch" = false → strContains d "NetworkError" = false →
      handleSubmit typedState none env400Plain =
        ⟨{ typedState with error := some ("Server Error: " ++ d ++ "."),
                           inFlight := false, loading := false }, 1, []⟩) ∧
    (resp400Plain.jsonDetails = none ∨ resp400Plain.jsonDetails = some "" →
      handleSubmit typedState none env400Plain =
        ⟨{ typedState with error := some ("Server Error: " ++ "HTTP error! status: 400" ++ "."),
                           inFlight := false, loading := false }, 1, []⟩) ∧
    (∀ d : String, resp400Plain.jsonDetails = some d →
      (strContains d "Failed to fetch" || strContains d "NetworkError") = true →
      handleSubmit typedState none env400Plain =
        ⟨{ typedState with result := some MOCK_FONT_SUGGESTION, error := some mockErrorMsg,
                           lastPrompt := some (jsTrim ((none : Option String).getD typedState.prompt)),
                           inFlight := false, loading := false }, 1, [500]⟩) :=
  http400_single_attempt_details typedState none env400Plain resp400Plain
    (by decide) (by decide) (by decide) rfl rfl

/-- C7: for every submit that fails with a non-network failure (the try
body throws a message that does not contain the transport-failure
markers), the error field becomes the wrapped server message, the result
field and Dedup Memory are left unchanged (the record update keeps
`result` and `lastPrompt` at their prior values), and the guard and
loading end clear. -/
theorem submit_upstream_error (s : AppState) (init : Option String)
    (env : Nat → AttemptOutcome) (m : String)
    (h1 : jsTrim (init.getD s.prompt) ≠ "") (h2 : s.inFlight = false)
    (h3 : dedupHit s.lastPrompt (jsTrim (init.getD s.prompt)) = false)
    (hm : failureMsg (retryLoop env) = some m)
    (hf : strContains m "Failed to fetch" = false)
    (hn : strContains m "NetworkError" = false) :
    handleSubmit s init env =
      ⟨{ s with error := some ("Server Error: " ++ m ++ "."),
                inFlight := false, loading := false },
        (retryLoop env).attempts, (retryLoop env).delays⟩ := by
  rw [handleSubmit_proceed s init env h1 h2 h3,
    tryCatchBlock_failure _ _ env m hm]
  simp [catchHandler, hf, hn]

/-- Witness for C7: a 400 with details, against a state already showing a
result — the result and the recorded prompt survive. -/
theorem submit_upstream_error_witness :
    handleSubmit resolvedState (some "Other Title") env400Plain =
      ⟨{ resolvedState with error := some ("Server Error: " ++ "Bad prompt" ++ "."),
                            inFlight := false, loading := false }, 1, []⟩ :=
  submit_upstream_error resolvedState (some "Other Title") env400Plain "Bad prompt"
    (by decide) (by decide) (by decide) (by decide) (by decide) (by decide)

/-- C1: for every submit whose retry loop ends in a propagated
connection-level throw whose message contains "Failed to fetch" or
"NetworkError", the final delay is the fixed 500ms fallback delay, the
result becomes the fixed fallback suggestion, the error becomes the
non-null mock advisory (which names the endpoint and the mock font), the
trimmed title is recorded in Dedup Memory — and a second submit of the
same title, under any environment, issues no network call and changes
nothing. -/
theorem submit_network_fallback (s : AppState) (init : Option String)
    (env : Nat → AttemptOutcome) (msg : String)
    (h1 : jsTrim (init.getD s.prompt) ≠ "") (h2 : s.inFlight = false)
    (h3 : dedupHit s.lastPrompt (jsTrim (init.getD s.prompt)) = false)
    (hx : (retryLoop env).exit = .thrown msg)
    (hnet : (strContains msg "Failed to fetch" || strContains msg "NetworkError") = true) :
    handleSubmit s init env =
      ⟨{ s with result := some MOCK_FONT_SUGGESTION, error := some mockErrorMsg,
                lastPrompt := some (jsTrim (init.getD s.prompt)),
                inFlight := false, loading := false },
        (retryLoop env).attempts, (retryLoop env).delays ++ [500]⟩ ∧
    ∀ env2 : Nat → AttemptOutcome,
      handleSubmit
          { s with result := some MOCK_FONT_SUGGESTION, error := some mockErrorMsg,
                   lastPrompt := some (jsTrim (init.getD s.prompt)),
                   inFlight := false, loading := false } init env2 =
        ⟨{ s with result := some MOCK_FONT_SUGGESTION, error := some mockErrorMsg,
                  lastPrompt := some (jsTrim (init.getD s.prompt)),
                  inFlight := false, loading := false }, 0, []⟩ := by
  have hfail : failureMsg (retryLoop env) = some msg := by
    unfold failureMsg
    rw [hx]
  constructor
  · rw [handleSubmit_proceed s init env h1 h2 h3,
      tryCatchBlock_failure _ _ env msg hfail]
    simp [catchHandler, hnet, updateResult_eq_some]
  · intro env2
    exact submit_dedup_skip _ init env2 (jsTrim (init.getD s.prompt)) rfl h1 rfl

/-- The environment whose every attempt rejects with the browser message
for an unreachable server. -/
def envNetFail : Nat → AttemptOutcome := fun _ => .throwErr "Failed to fetch"

/-- Witness for C1 at a transport failure on every attempt. -/
theorem submit_network_fallback_witness :
    (handleSubmit typedState none envNetFail =
      ⟨{ typedState with result := some MOCK_FONT_SUGGESTION, error := some mockErrorMsg,
                         lastPrompt := some (jsTrim ((none : Option String).getD typedState.prompt)),
                         inFlight := false, loading := false },
        (retryLoop envNetFail).attempts, (retryLoop envNetFail).delays ++ [500]⟩) ∧
    ∀ env2 : Nat → AttemptOutcome,
      handleSubmit
          { typedState with result := some MOCK_FONT_SUGGESTION, error := some mockErrorMsg,
                            lastPrompt := some (jsTrim ((none : Option String).getD typedState.prompt)),
                            inFlight := false, loading := false } none env2 =
        ⟨{ typedState with result := some MOCK_FONT_SUGGESTION, error := some mockErrorMsg,
                           lastPrompt := some (jsTrim ((none : Option String).getD typedState.prompt)),
                           inFlight := false, loading := false }, 0, []⟩ :=
  submit_network_fallback typedState none envNetFail "Failed to fetch"
    (by decide) (by decide) (by decide) (by decide) (by decide)

/-- C8: on success the result is recorded through the field-wise
no-redundant-update rule — a field-wise identical suggestion keeps the
previous object — and two consecutive successful submits for two different
titles whose payloads agree field-wise leave the stored result unchanged
between them. -/
theorem success_no_redundant_update (s : AppState) (init1 init2 : Option String)
    (env1 env2 : Nat → AttemptOutcome) (r1 r2 : HttpResponse) (d d2 : FontSuggestion)
    (h1 : jsTrim (init1.getD s.prompt) ≠ "") (h2 : s.inFlight = false)
    (h3 : dedupHit s.lastPrompt (jsTrim (init1.getD s.prompt)) = false)
    (hx1 : (retryLoop env1).exit = .finished (some r1))
    (hok1 : respOk r1 = true)
    (hj1 : r1.jsonSuggestion = .parsed d)
    (h4 : jsTrim (init2.getD s.prompt) ≠ "")
    (h5 : jsTrim (init2.getD s.prompt) ≠ jsTrim (init1.getD s.prompt))
    (hx2 : (retryLoop env2).exit = .finished (some r2))
    (hok2 : respOk r2 = true)
    (hj2 : r2.jsonSuggestion = .parsed d2)
    (hfn : d2.font_name = d.font_name) (hrn : d2.reason = d.reason) :
    (∀ (p e : FontSuggestion), p.font_name = e.font_name → p.reason = e.reason →
      updateResult (some p) e = some p) ∧
    (handleSubmit s init1 env1).state.result = some d ∧
    (handleSubmit (handleSubmit s init1 env1).state init2 env2).state.result =
      (handleSubmit s init1 env1).state.result := by
  have hdd : d2 = d := by
    cases d
    cases d2
    simp_all
  have e1 : handleSubmit s init1 env1 =
      ⟨{ s with result := updateResult s.result d, error := none,
                lastPrompt := some (jsTrim (init1.getD s.prompt)),
                inFlight := false, loading := false },
        (retryLoop env1).attempts, (retryLoop env1).delays⟩ := by
    rw [handleSubmit_proceed s init1 env1 h1 h2 h3,
      tryCatchBlock_success _ _ env1 r1 d hx1 hok1 hj1]
  have hbeq : (jsTrim (init1.getD s.prompt) == jsTrim (init2.getD s.prompt)) = false :=
    beq_eq_false_iff_ne.mpr (Ne.symm h5)
  have hd2 : dedupHit (some (jsTrim (init1.getD s.prompt)))
      (jsTrim (init2.getD s.prompt)) = false := by
    simp [dedupHit, hbeq]
  have e2 : handleSubmit
      { s with result := updateResult s.result d, error := none,
               lastPrompt := some (jsTrim (init1.getD s.prompt)),
               inFlight := false, loading := false } init2 env2 =
      ⟨{ s with result := updateResult (updateResult s.result d) d2, error := none,
                lastPrompt := some (jsTrim (init2.getD s.prompt)),
                inFlight := false, loading := false },
        (retryLoop env2).attempts, (retryLoop env2).delays⟩ := by
    rw [handleSubmit_proceed
        { s with result := updateResult s.result d, error := none,
                 lastPrompt := some (jsTrim (init1.getD s.prompt)),
                 inFlight := false, loading := false } init2 env2 h4 rfl hd2,
      tryCatchBlock_success _ _ env2 r2 d2 hx2 hok2 hj2]
  refine ⟨fun p e hf hr => by simp [updateResult, hf, hr], ?_, ?_⟩
  · rw [e1]
    exact updateResult_eq_some s.result d
  · rw [e1, e2]
    simp [updateResult_eq_some, hdd]

/-- A suggestion payload used by the C8 witness. -/
def sugInter : FontSuggestion := ⟨"Inter", "clean lines"⟩

/-- The environment whose every attempt resolves with HTTP 200 and the
payload of the C8 witness. -/
def envOkInter : Nat → AttemptOutcome := fun _ => .ret (okResp sugInter)

/-- Witness for C8 at two different titles returning the same payload. -/
theorem success_no_redundant_update_witness :
    (∀ (p e : FontSuggestion), p.font_name = e.font_name → p.reason = e.reason →
      updateResult (some p) e = some p) ∧
    (handleSubmit freshState (some "title one") envOkInter).state.result = some sugInter ∧
    (handleSubmit (handleSubmit freshState (some "title one") envOkInter).state
        (some "title two") envOkInter).state.result =
      (handleSubmit freshState (some "title one") envOkInter).state.result :=
  success_no_redundant_update freshState (some "title one") (some "title two")
    envOkInter envOkInter (okResp sugInter) (okResp sugInter) sugInter sugInter
    (by decide) (by decide) (by decide) (by decide) (by decide) rfl
    (by decide) (by decide) (by decide) (by decide) rfl rfl rfl
